import Mathlib

/-!
Verification of the coordination layer of the cloud-platform deployment
manager (`pkg/manager/manager.go`): the namespace-scoped client/readiness
registry, the monitor registry, and the annotation-based notification
cascade.  Go maps are embedded as association lists, the cluster object
store as a list of objects, and the fallible external calls (List/Update)
as explicit outcome oracles passed to each operation.
-/

set_option maxHeartbeats 1000000

namespace CPDM

/-- Opaque handle standing for a `*gophercloud.ServiceClient`. -/
abbrev Client := Nat

/-- Go `type SystemType string`. -/
abbrev SystemType := String

/-- Errors of the manager package (`BaseError` derivatives) together with
errors coming back from the cluster API (`external`) and the
`perrors.Wrap`/`Wrapf` context wrapper. -/
inductive MgrError where
  | clientError (msg : String)
  | waitForMonitor (msg : String)
  | wrapped (msg : String) (cause : MgrError)
  | external (msg : String)
deriving DecidableEq, Repr

/-! ### Association-list embedding of Go maps -/

/-- Lookup in a Go map embedded as an association list. -/
def lookupMap {α : Type} : List (String × α) → String → Option α
  | [], _ => none
  | (k', v) :: rest, k => if k = k' then some v else lookupMap rest k

/-- Go map assignment `m[k] = v`: replace the first binding of `k`, or
append a fresh binding. -/
def insertMap {α : Type} : List (String × α) → String → α → List (String × α)
  | [], k, v => [(k, v)]
  | (k', v') :: rest, k, v =>
    if k = k' then (k, v) :: rest else (k', v') :: insertMap rest k v

/-- Go `delete(m, k)`: drop the first binding of `k`. -/
def eraseMap {α : Type} : List (String × α) → String → List (String × α)
  | [], _ => []
  | (k', v') :: rest, k => if k = k' then rest else (k', v') :: eraseMap rest k

/-- The map holds at most one binding per key. -/
def keysNodup {α : Type} (m : List (String × α)) : Prop :=
  (m.map Prod.fst).Nodup

/-! ### Counter derivation (`getNextCount`, lines 131-147) -/

/-- Smallest value of Go's 64-bit `int`. -/
def int64Min : Int := -(2 ^ 63)

/-- Largest value of Go's 64-bit `int`. -/
def int64Max : Int := 2 ^ 63 - 1

/-- Two's-complement wrap-around of Go 64-bit `int` arithmetic. -/
def wrap64 (z : Int) : Int := (z + 2 ^ 63) % 2 ^ 64 - 2 ^ 63

/-- Model of Go `strconv.Atoi` on a 64-bit platform: an optional sign
followed by at least one decimal digit, nothing else, and the value must
lie in the `int64` range — out-of-range input yields `ErrRange`, which the
caller treats like any other error (`none` here). -/
def atoi? (s : String) : Option Int :=
  match s.toList with
  | [] => none
  | c :: rest =>
    let (neg, digits) :=
      if c = '-' then (true, rest)
      else if c = '+' then (false, rest)
      else (false, c :: rest)
    if digits ≠ [] ∧ digits.all Char.isDigit then
      let n : Nat := digits.foldl (fun acc d => acc * 10 + (d.toNat - 48)) 0
      let v : Int := if neg then -(n : Int) else (n : Int)
      if int64Min ≤ v ∧ v ≤ int64Max then some v else none
    else none

/-- Function `getNextCount` (lines 134-147): parse the old value as an
integer, treating the empty string or a string `Atoi` rejects as `0`, and
render `old + 1` — computed in Go's wrapping 64-bit `int` arithmetic — as
decimal text. -/
def getNextCount (value : String) : String :=
  let count : Int :=
    if value = "" then 0
    else
      match atoi? value with
      | some n => n
      | none => 0
  toString (wrap64 (count + 1))

/-! ### Cluster objects and the notification cascade -/

/-- Annotation key `deployment-manager/notifications` (line 37). -/
def NotificationCountKey : String := "deployment-manager/notifications"

/-- Resource kind names of the `v1` API package.  Modelled from the spec and
the CRD manifests: the `v1.Kind*` constants are declared outside the sources
in scope; only their distinctness matters here. -/
def KindHost : String := "Host"

def KindHostProfile : String := "HostProfile"

def KindPlatformNetwork : String := "PlatformNetwork"

def KindDataNetwork : String := "DataNetwork"

def KindPTPInstance : String := "PtpInstance"

def KindPTPInterface : String := "PtpInterface"

def KindSystem : String := "System"

/-- Values of `v1.Group` / `v1.Version` of the StarlingX API package (from the CRD
manifest `starlingx.windriver.com/v1`). -/
def GroupStarlingX : String := "starlingx.windriver.com"

def VersionV1 : String := "v1"

/-- Mirror of `schema.GroupVersionKind`. -/
structure GVK where
  group : String
  version : String
  kind : String
deriving DecidableEq, Repr

/-- A cluster object as the cascade sees it: identity plus the generic
annotation map.  `anns = none` embeds a Go `nil` annotation map, which is
distinct from an empty one (reads yield zero values, writes panic). -/
structure Obj where
  ns : String
  kind : String
  name : String
  anns : Option (List (String × String))
deriving DecidableEq, Repr

/-- The cluster object store. -/
abbrev Cluster := List Obj

/-- Identity of an object (namespace, kind, name). -/
def ident (o : Obj) : String × String × String := (o.ns, o.kind, o.name)

/-- Embedding of `client.Update`: replace the stored object with the same identity. -/
def updateObj (c : Cluster) (o : Obj) : Cluster :=
  c.map fun x => if ident x = ident o then o else x

/-- The annotation bump performed by `notifyControllers` (lines 216-225):
a `nil` annotation map is replaced by a fresh one, then the counter
annotation is set to its next value. -/
def bumpAnn (o : Obj) : Obj :=
  let anns := o.anns.getD []
  let count := getNextCount ((lookupMap anns NotificationCountKey).getD "")
  { o with anns := some (insertMap anns NotificationCountKey count) }

/-- List `systemDependencies` (lines 181-197): the five controller kinds notified
on a system event; HostProfiles are deliberately absent. -/
def systemDependencies : List GVK :=
  [⟨GroupStarlingX, VersionV1, KindHost⟩,
   ⟨GroupStarlingX, VersionV1, KindPlatformNetwork⟩,
   ⟨GroupStarlingX, VersionV1, KindDataNetwork⟩,
   ⟨GroupStarlingX, VersionV1, KindPTPInstance⟩,
   ⟨GroupStarlingX, VersionV1, KindPTPInterface⟩]

/-- The kinds accepted by the `switch` in `notifyControllers` (line 216). -/
def notifyKinds : List String :=
  [KindHost, KindHostProfile, KindPlatformNetwork, KindDataNetwork,
   KindPTPInstance, KindPTPInterface]

/-- Inner loop of `notifyControllers` (lines 214-235) over the listed
objects of one kind: objects of a recognized kind get their counter bumped
and written back; the first failing update aborts with a wrapped error.
`uerr` is the outcome oracle of `client.Update`. -/
def processObjs (uerr : Obj → Option MgrError) : List Obj → Cluster → Cluster × Option MgrError
  | [], c => (c, none)
  | o :: rest, c =>
    if o.kind ∈ notifyKinds then
      let o' := bumpAnn o
      match uerr o' with
      | some e => (c, some (.wrapped ("failed to notify " ++ o.kind ++ " controller") e))
      | none => processObjs uerr rest (updateObj c o')
    else processObjs uerr rest c

/-- Function `notifyControllers` (lines 202-239): for each kind, list the instances
in the namespace and bump each one.  `lerr` is the outcome oracle of
`client.List` per (namespace, kind). -/
def notifyControllers (lerr : String → String → Option MgrError) (uerr : Obj → Option MgrError)
    (n : String) : List GVK → Cluster → Cluster × Option MgrError
  | [], c => (c, none)
  | g :: rest, c =>
    match lerr n g.kind with
    | some e => (c, some (.wrapped ("failed to query " ++ g.kind ++ " list") e))
    | none =>
      let objs := c.filter fun o => o.ns == n && o.kind == g.kind
      match processObjs uerr objs c with
      | (c', none) => notifyControllers lerr uerr n rest c'
      | (c', some e) => (c', some e)

/-- Fold of successful cascade updates: bump each listed object in turn. -/
def applyAll (L : List Obj) (c : Cluster) : Cluster :=
  L.foldl (fun cc o => updateObj cc (bumpAnn o)) c

/-- Pointwise effect of `applyAll`: the bumped image of the first listed
object carrying the same identity, if any. -/
def repl : List Obj → Obj → Obj
  | [], x => x
  | o :: L, x => if ident o = ident x then bumpAnn o else repl L x

/-- Conditional bump over a set of kinds in a namespace. -/
def bumpIf (n : String) (kinds : List String) (o : Obj) : Obj :=
  if o.ns = n ∧ o.kind ∈ kinds then bumpAnn o else o

/-- Function `NotifySystemDependencies` (lines 288-290). -/
def NotifySystemDependencies (lerr : String → String → Option MgrError)
    (uerr : Obj → Option MgrError) (n : String) (c : Cluster) : Cluster × Option MgrError :=
  notifyControllers lerr uerr n systemDependencies c

/-- Outcome of a cascade that can also die on a Go runtime panic. -/
inductive PRes where
  | ok (c : Cluster)
  | err (e : MgrError) (c : Cluster)
  | panicked (c : Cluster)
deriving DecidableEq, Repr

/-- Inner loop of `NotifySystemController` (lines 161-172).  Unlike
`notifyControllers`, the code assigns `obj.Annotations[key] = count` with no
nil-map guard: on an object whose annotation map is `nil` the assignment is
a Go runtime panic.  Reading the counter from a nil map is legal and yields
the zero value `""`. -/
def processSystems (uerr : Obj → Option MgrError) : List Obj → Cluster → PRes
  | [], c => .ok c
  | o :: rest, c =>
    let count := getNextCount ((lookupMap (o.anns.getD []) NotificationCountKey).getD "")
    match o.anns with
    | none => .panicked c
    | some anns =>
      let o' := { o with anns := some (insertMap anns NotificationCountKey count) }
      match uerr o' with
      | some e => .err (.wrapped "failed to notify system controller" e) c
      | none => processSystems uerr rest (updateObj c o')

/-! ### Manager state -/

/-- Struct `SystemNamespace` (lines 74-78). -/
structure SystemNamespace where
  client : Option Client
  ready : Bool
  systemType : SystemType
deriving DecidableEq, Repr

/-- Lifecycle phase of a monitor's background task.  Modelled from the spec:
`idle → running → stopped`; the `Monitor` type itself is outside the sources
in scope. -/
inductive MonitorPhase where
  | idle
  | running
  | stopped
deriving DecidableEq, Repr

/-- A monitor: a stable key plus an identity for tracing start/stop effects.
Modelled from the spec (the `Monitor` implementation is not among the
sources in scope; `GetKey` is its stable key). -/
structure Monitor where
  id : Nat
  key : String
  phase : MonitorPhase
deriving DecidableEq, Repr

/-- Observable lifecycle effects on monitors: `Monitor.Start` and
`Monitor.Stop` invocations, recorded by monitor identity. -/
inductive MonitorEvent where
  | start (id : Nat)
  | stop (id : Nat)
deriving DecidableEq, Repr

/-- The `PlatformManager` state (lines 80-85) together with the cluster it
talks to and two effect logs: monitor start/stop invocations and
`NotifySystemController` invocations. -/
structure MgrState where
  systems : List (String × SystemNamespace)
  monitors : List (String × Monitor)
  cluster : Cluster
  events : List MonitorEvent
  sysNotifyLog : List String
deriving DecidableEq, Repr

/-- Constructor `NewPlatformManager` (lines 87-93): empty registries. -/
def initState (c : Cluster) : MgrState :=
  { systems := [], monitors := [], cluster := c, events := [], sysNotifyLog := [] }

/-- Outcome of a manager call returning a Go `error`. -/
inductive COut where
  | ok
  | err (e : MgrError)
  | panicked
deriving DecidableEq, Repr

/-- Function `NotifySystemController` (lines 149-175) acting on the manager state:
lists the System instances of the namespace and bumps each counter.  The
invocation itself is recorded in `sysNotifyLog`. -/
def NotifySystemControllerS (lerr : Option MgrError) (uerr : Obj → Option MgrError)
    (s : MgrState) (n : String) : MgrState × COut :=
  let s0 := { s with sysNotifyLog := s.sysNotifyLog ++ [n] }
  match lerr with
  | some e => (s0, .err (.wrapped "failed to query system list" e))
  | none =>
    match processSystems uerr (s0.cluster.filter fun o => o.ns == n && o.kind == KindSystem)
        s0.cluster with
    | .ok c' => ({ s0 with cluster := c' }, .ok)
    | .err e c' => ({ s0 with cluster := c' }, .err e)
    | .panicked c' => ({ s0 with cluster := c' }, .panicked)

/-! ### Registry operations -/

/-- Function `GetPlatformClient` (lines 304-314): the cached client, or `none` when
the namespace has no entry (an entry whose client was reset also yields
`none`). -/
def GetPlatformClient (s : MgrState) (n : String) : Option Client :=
  match lookupMap s.systems n with
  | some e => e.client
  | none => none

/-- Modelled from the spec: `BuildPlatformClient` delegates to the external
connection factory (`factory` is its outcome); on success it stores the
handle, replacing any prior value and merging with an existing entry, and
returns it; on failure it returns a client-construction error without
mutating the registry. -/
def BuildPlatformClient (s : MgrState) (n : String) (factory : Option Client) :
    MgrState × Option Client × Option MgrError :=
  match factory with
  | none => (s, none, some (.clientError "failed to build platform client"))
  | some h =>
    match lookupMap s.systems n with
    | some e =>
      ({ s with systems := insertMap s.systems n { e with client := some h } }, some h, none)
    | none =>
      ({ s with systems := insertMap s.systems n (SystemNamespace.mk (some h) false "") },
       some h, none)

/-- Function `ResetPlatformClient` (lines 318-337): a missing entry or an already
absent client is a silent no-op; otherwise clear the client and notify the
system controller. -/
def ResetPlatformClient (lerr : Option MgrError) (uerr : Obj → Option MgrError)
    (s : MgrState) (n : String) : MgrState × COut :=
  match lookupMap s.systems n with
  | none => (s, .ok)
  | some e =>
    match e.client with
    | none => (s, .ok)
    | some _ =>
      let s1 := { s with systems := insertMap s.systems n { e with client := none } }
      NotifySystemControllerS lerr uerr s1 n

/-- Function `SetSystemReady` (lines 340-349). -/
def SetSystemReady (s : MgrState) (n : String) (value : Bool) : MgrState :=
  match lookupMap s.systems n with
  | none =>
    { s with systems := insertMap s.systems n (SystemNamespace.mk none value "") }
  | some e => { s with systems := insertMap s.systems n { e with ready := value } }

/-- Function `GetSystemReady` (lines 353-362). -/
def GetSystemReady (s : MgrState) (n : String) : Bool :=
  match lookupMap s.systems n with
  | none => false
  | some e => e.ready

/-- Function `SetSystemType` (lines 365-377): writing the value already stored is a
no-op. -/
def SetSystemType (s : MgrState) (n : String) (value : SystemType) : MgrState :=
  match lookupMap s.systems n with
  | none =>
    { s with systems := insertMap s.systems n (SystemNamespace.mk none false value) }
  | some e =>
    if e.systemType = value then s
    else { s with systems := insertMap s.systems n { e with systemType := value } }

/-- Function `GetSystemType` (lines 381-390). -/
def GetSystemType (s : MgrState) (n : String) : SystemType :=
  match lookupMap s.systems n with
  | none => ""
  | some e => e.systemType

/-! ### Monitor registry -/

/-- Function `StartMonitor` (lines 395-410): overwrite the registry entry under the
monitor's key, start the monitor (`Monitor.Start`, modelled from the spec
as entering the running phase), and return the `WaitForMonitor` sentinel
carrying the message.  `none` in the second component would be a Go `nil`
error. -/
def StartMonitor (s : MgrState) (monitor : Monitor) (message : String) :
    MgrState × Option MgrError :=
  ({ s with
      monitors := insertMap s.monitors monitor.key { monitor with phase := .running },
      events := s.events ++ [.start monitor.id] },
   some (.waitForMonitor message))

/-- Function `CancelMonitor` (lines 414-424): stop and deregister the monitor under
the given key (`BuildMonitorKey object`); no-op when absent.
`Monitor.Stop` is modelled from the spec as a recorded stop effect. -/
def CancelMonitor (s : MgrState) (key : String) : MgrState :=
  match lookupMap s.monitors key with
  | some monitor =>
    { s with monitors := eraseMap s.monitors key,
             events := s.events ++ [.stop monitor.id] }
  | none => s

/-! ### Reachable states of the manager -/

/-- One invocation of a mutating `CloudManager` operation, carrying the
outcome oracles of the external collaborators it consults. -/
inductive Op where
  | build (n : String) (factory : Option Client)
  | reset (n : String) (lerr : Option MgrError) (uerr : Obj → Option MgrError)
  | setReady (n : String) (v : Bool)
  | setType (n : String) (t : SystemType)
  | startMon (m : Monitor) (msg : String)
  | cancelMon (key : String)
  | notifyDeps (n : String) (lerr : String → String → Option MgrError)
      (uerr : Obj → Option MgrError)
  | notifySys (n : String) (lerr : Option MgrError) (uerr : Obj → Option MgrError)

/-- State transition of one operation. -/
def step (s : MgrState) : Op → MgrState
  | .build n factory => (BuildPlatformClient s n factory).1
  | .reset n lerr uerr => (ResetPlatformClient lerr uerr s n).1
  | .setReady n v => SetSystemReady s n v
  | .setType n t => SetSystemType s n t
  | .startMon m msg => (StartMonitor s m msg).1
  | .cancelMon key => CancelMonitor s key
  | .notifyDeps n lerr uerr =>
    { s with cluster := (NotifySystemDependencies lerr uerr n s.cluster).1 }
  | .notifySys n lerr uerr => (NotifySystemControllerS lerr uerr s n).1

/-- Run a sequence of operations. -/
def run (s : MgrState) (ops : List Op) : MgrState :=
  ops.foldl step s

/-- Whether an operation is a successful `BuildPlatformClient` for the
given namespace. -/
def isSuccBuild (n : String) : Op → Bool
  | .build n' (some _) => n' == n
  | _ => false

/-! ### Helper lemmas -/

theorem lookupMap_insertMap_self {α : Type} (m : List (String × α)) (k : String) (v : α) :
    lookupMap (insertMap m k v) k = some v := by
  induction m with
  | nil => simp [insertMap, lookupMap]
  | cons hd tl ih =>
    obtain ⟨k', v'⟩ := hd
    by_cases h : k = k'
    · simp [insertMap, lookupMap, h]
    · simp [insertMap, lookupMap, h, ih]

theorem lookupMap_insertMap_ne {α : Type} (m : List (String × α)) (k k' : String) (v : α)
    (h : k' ≠ k) : lookupMap (insertMap m k v) k' = lookupMap m k' := by
  induction m with
  | nil => simp [insertMap, lookupMap, h]
  | cons hd tl ih =>
    obtain ⟨k₀, v₀⟩ := hd
    by_cases hk : k = k₀
    · subst hk
      simp [insertMap, lookupMap, h]
    · by_cases hk' : k' = k₀
      · simp [insertMap, lookupMap, hk, hk']
      · simp [insertMap, lookupMap, hk, hk', ih]

theorem mem_keys_insertMap {α : Type} (m : List (String × α)) (k a : String) (v : α)
    (h : a ∈ (insertMap m k v).map Prod.fst) : a ∈ m.map Prod.fst ∨ a = k := by
  induction m with
  | nil =>
    exact Or.inr (by simpa [insertMap] using h)
  | cons hd tl ih =>
    obtain ⟨k₀, v₀⟩ := hd
    by_cases hk : k = k₀
    · subst hk
      rw [show insertMap ((k, v₀) :: tl) k v = (k, v) :: tl from by simp [insertMap]] at h
      rcases List.mem_cons.mp h with h1 | h1
      · exact Or.inr h1
      · exact Or.inl (List.mem_cons.mpr (Or.inr h1))
    · rw [show insertMap ((k₀, v₀) :: tl) k v = (k₀, v₀) :: insertMap tl k v from by
        simp [insertMap, hk]] at h
      rcases List.mem_cons.mp h with h1 | h1
      · exact Or.inl (List.mem_cons.mpr (Or.inl h1))
      · rcases ih h1 with h' | h'
        · exact Or.inl (List.mem_cons.mpr (Or.inr h'))
        · exact Or.inr h'

theorem keysNodup_insertMap {α : Type} (m : List (String × α)) (k : String) (v : α)
    (h : keysNodup m) : keysNodup (insertMap m k v) := by
  induction m with
  | nil => simp [keysNodup, insertMap]
  | cons hd tl ih =>
    obtain ⟨k₀, v₀⟩ := hd
    simp only [keysNodup, List.map_cons, List.nodup_cons] at h
    by_cases hk : k = k₀
    · subst hk
      rw [keysNodup, show insertMap ((k, v₀) :: tl) k v = (k, v) :: tl from by simp [insertMap]]
      simp only [List.map_cons, List.nodup_cons]
      exact ⟨h.1, h.2⟩
    · rw [keysNodup, show insertMap ((k₀, v₀) :: tl) k v = (k₀, v₀) :: insertMap tl k v from by
        simp [insertMap, hk]]
      simp only [List.map_cons, List.nodup_cons]
      refine ⟨?_, ih h.2⟩
      intro hmem
      rcases mem_keys_insertMap tl k k₀ v hmem with h' | h'
      · exact h.1 h'
      · exact hk h'.symm

theorem getPlatformClient_eq_bind (s : MgrState) (n : String) :
    GetPlatformClient s n = (lookupMap s.systems n).bind (fun e => e.client) := by
  unfold GetPlatformClient
  cases lookupMap s.systems n <;> rfl

theorem systems_notifySystemControllerS (lerr : Option MgrError) (uerr : Obj → Option MgrError)
    (s : MgrState) (n : String) :
    (NotifySystemControllerS lerr uerr s n).1.systems = s.systems := by
  cases lerr with
  | some e => rfl
  | none =>
    simp only [NotifySystemControllerS]
    split <;> rfl

theorem monitors_notifySystemControllerS (lerr : Option MgrError) (uerr : Obj → Option MgrError)
    (s : MgrState) (n : String) :
    (NotifySystemControllerS lerr uerr s n).1.monitors = s.monitors := by
  cases lerr with
  | some e => rfl
  | none =>
    simp only [NotifySystemControllerS]
    split <;> rfl

/-- The no-op branches of `ResetPlatformClient`: missing entry or client
already absent. -/
theorem reset_noop (lerr : Option MgrError) (uerr : Obj → Option MgrError)
    (s : MgrState) (n : String)
    (h : lookupMap s.systems n = none ∨
      ∃ e, lookupMap s.systems n = some e ∧ e.client = none) :
    ResetPlatformClient lerr uerr s n = (s, COut.ok) := by
  rcases h with h | ⟨e, he, hc⟩
  · simp [ResetPlatformClient, h]
  · simp [ResetPlatformClient, he, hc]

/-- After any `ResetPlatformClient n`, the cached client of `n` is absent. -/
theorem reset_client_cleared (lerr : Option MgrError) (uerr : Obj → Option MgrError)
    (s : MgrState) (n : String) :
    GetPlatformClient (ResetPlatformClient lerr uerr s n).1 n = none := by
  cases hl : lookupMap s.systems n with
  | none => simp [ResetPlatformClient, hl, getPlatformClient_eq_bind]
  | some e =>
    cases hc : e.client with
    | none => simp [ResetPlatformClient, hl, hc, getPlatformClient_eq_bind]
    | some h =>
      simp only [ResetPlatformClient, hl, hc]
      rw [getPlatformClient_eq_bind, systems_notifySystemControllerS]
      simp [lookupMap_insertMap_self]

theorem getPlatformClient_none_cases (s : MgrState) (n : String)
    (h : GetPlatformClient s n = none) :
    lookupMap s.systems n = none ∨
      ∃ e, lookupMap s.systems n = some e ∧ e.client = none := by
  rw [getPlatformClient_eq_bind] at h
  cases hl : lookupMap s.systems n with
  | none => exact Or.inl rfl
  | some e =>
    rw [hl] at h
    exact Or.inr ⟨e, rfl, h⟩

/-! ### C1, C8: monitor registry -/

/-- C1: `StartMonitor(m, s)` always returns the `WaitForMonitor` pause
signal carrying `s` (never a plain error, never a `nil` error), and
immediately afterwards the monitor registry maps `m`'s key to `m`, now in
the running phase. -/
theorem startMonitor_returns_waitForMonitor (s : MgrState) (m : Monitor) (msg : String) :
    (StartMonitor s m msg).2 = some (MgrError.waitForMonitor msg) ∧
    lookupMap (StartMonitor s m msg).1.monitors m.key =
      some { m with phase := MonitorPhase.running } :=
  ⟨rfl, lookupMap_insertMap_self s.monitors m.key _⟩

/-- C8: starting a monitor whose key is already registered overwrites the
registry entry with the new monitor and records no `Stop` invocation for
the old one; `CancelMonitor` on a registered key records a `Stop` for that
monitor and erases its entry. -/
theorem startMonitor_overwrites_cancelMonitor_stops (s : MgrState) (m m' : Monitor)
    (msg : String) (k : String) (mc : Monitor) :
    (lookupMap s.monitors m.key = some m' →
      lookupMap (StartMonitor s m msg).1.monitors m.key =
        some { m with phase := MonitorPhase.running } ∧
      (StartMonitor s m msg).1.events = s.events ++ [MonitorEvent.start m.id] ∧
      (MonitorEvent.stop m'.id ∈ (StartMonitor s m msg).1.events →
        MonitorEvent.stop m'.id ∈ s.events)) ∧
    (lookupMap s.monitors k = some mc →
      CancelMonitor s k =
        { s with monitors := eraseMap s.monitors k,
                 events := s.events ++ [MonitorEvent.stop mc.id] }) := by
  constructor
  · intro _
    refine ⟨lookupMap_insertMap_self s.monitors m.key _, rfl, ?_⟩
    intro hmem
    simp only [StartMonitor, List.mem_append] at hmem
    rcases hmem with hmem | hmem
    · exact hmem
    · simp at hmem
  · intro hc
    simp [CancelMonitor, hc]

theorem startMonitor_overwrites_cancelMonitor_stops_witness :
    lookupMap (StartMonitor (MgrState.mk []
        [("k1", Monitor.mk 1 "k1" MonitorPhase.running)] [] [] [])
        (Monitor.mk 2 "k1" MonitorPhase.idle) "waiting").1.monitors "k1" =
      some (Monitor.mk 2 "k1" MonitorPhase.running) ∧
    CancelMonitor (MgrState.mk [] [("k1", Monitor.mk 1 "k1" MonitorPhase.running)] [] [] [])
        "k1" =
      MgrState.mk [] [] [] [MonitorEvent.stop 1] [] := by
  have h := startMonitor_overwrites_cancelMonitor_stops
    (MgrState.mk [] [("k1", Monitor.mk 1 "k1" MonitorPhase.running)] [] [] [])
    (Monitor.mk 2 "k1" MonitorPhase.idle) (Monitor.mk 1 "k1" MonitorPhase.running)
    "waiting" "k1" (Monitor.mk 1 "k1" MonitorPhase.running)
  refine ⟨(h.1 (by decide)).1, ?_⟩
  rw [h.2 (by decide)]
  decide

/-! ### C10: getter defaults -/

/-- C10: a namespace with no registry entry reads as not ready and of the
default (empty/unknown) system type; both getters are pure observations of
the registry (mirroring the read-only Go bodies). -/
theorem getters_default_when_unknown (s : MgrState) (n : String)
    (h : lookupMap s.systems n = none) :
    GetSystemReady s n = false ∧ GetSystemType s n = "" := by
  simp [GetSystemReady, GetSystemType, h]

theorem getters_default_when_unknown_witness :
    GetSystemReady (initState []) "ns1" = false ∧ GetSystemType (initState []) "ns1" = "" :=
  getters_default_when_unknown (initState []) "ns1" rfl

/-! ### C4: counter derivation -/

/-- C4 (counterexample): at the largest `int64` the input parses, but the
program's increment wraps: the result is not the decimal representation of
`n + 1`, refuting the claim's unbounded-increment mapping at this
input. -/
theorem getNextCount_unbounded_increment_counterexample :
    atoi? "9223372036854775807" = some 9223372036854775807 ∧
    getNextCount "9223372036854775807" = "-9223372036854775808" ∧
    getNextCount "9223372036854775807" ≠ toString ((9223372036854775807 : Int) + 1) :=
  ⟨by decide, by decide, by decide⟩

/-- C4 (amended): the counter derivation maps the empty string to `"1"`, a
string `strconv.Atoi` accepts as the 64-bit integer `n` to the decimal
rendering of the wrapped 64-bit sum `n + 1` (so `"7"` to `"8"`, while the
largest `int64` wraps to the smallest), and any string `Atoi` rejects —
malformed like `"not-a-number"`, or outside the `int64` range — to `"1"`;
it is a total function on strings (never errors). -/
theorem getNextCount_total_spec :
    getNextCount "" = "1" ∧ getNextCount "7" = "8" ∧
    getNextCount "not-a-number" = "1" ∧
    getNextCount "9223372036854775807" = "-9223372036854775808" ∧
    getNextCount "9223372036854775808" = "1" ∧
    (∀ v n, atoi? v = some n → getNextCount v = toString (wrap64 (n + 1))) ∧
    (∀ v, atoi? v = none → getNextCount v = "1") := by
  refine ⟨by decide, by decide, by decide, by decide, by decide, ?_, ?_⟩
  · intro v n h
    have hv : v ≠ "" := by
      intro hv
      rw [hv] at h
      simp [atoi?] at h
    simp [getNextCount, hv, h]
  · intro v h
    by_cases hv : v = ""
    · rw [hv]; decide
    · simp only [getNextCount, hv, h, if_neg hv]
      decide

theorem getNextCount_total_spec_witness :
    getNextCount "7" = "8" ∧ getNextCount "x1" = "1" := by
  constructor
  · have h := getNextCount_total_spec.2.2.2.2.2.1 "7" 7 (by decide)
    rw [h]
    decide
  · exact getNextCount_total_spec.2.2.2.2.2.2 "x1" (by decide)

/-! ### C3: ResetPlatformClient idempotence -/

/-- C3: `ResetPlatformClient(n)` with no registry entry for `n`, or an
entry whose client is already absent, is a no-op: no error, registry and
whole state unchanged, and no system-controller notification; consequently
the second of two consecutive calls with no intervening build is a no-op
and performs no notification. -/
theorem resetPlatformClient_noop_and_idempotent
    (lerr lerr2 : Option MgrError) (uerr uerr2 : Obj → Option MgrError)
    (s : MgrState) (n : String) :
    ((lookupMap s.systems n = none ∨
        ∃ e, lookupMap s.systems n = some e ∧ e.client = none) →
      ResetPlatformClient lerr uerr s n = (s, COut.ok)) ∧
    ResetPlatformClient lerr2 uerr2 (ResetPlatformClient lerr uerr s n).1 n =
      ((ResetPlatformClient lerr uerr s n).1, COut.ok) ∧
    (ResetPlatformClient lerr2 uerr2 (ResetPlatformClient lerr uerr s n).1 n).1.sysNotifyLog =
      (ResetPlatformClient lerr uerr s n).1.sysNotifyLog := by
  have hsecond : ResetPlatformClient lerr2 uerr2 (ResetPlatformClient lerr uerr s n).1 n =
      ((ResetPlatformClient lerr uerr s n).1, COut.ok) := by
    apply reset_noop
    exact getPlatformClient_none_cases _ _ (reset_client_cleared lerr uerr s n)
  exact ⟨reset_noop lerr uerr s n, hsecond, by rw [hsecond]⟩

theorem resetPlatformClient_noop_and_idempotent_witness :
    ResetPlatformClient none (fun _ => none) (initState []) "ns1" = (initState [], COut.ok) :=
  (resetPlatformClient_noop_and_idempotent none none (fun _ => none) (fun _ => none)
    (initState []) "ns1").1 (Or.inl rfl)

/-! ### C2: the client is absent until a successful build -/

theorem reset_systems_other (lerr : Option MgrError) (uerr : Obj → Option MgrError)
    (s : MgrState) (n' n : String) (h : n ≠ n') :
    lookupMap ((ResetPlatformClient lerr uerr s n').1).systems n = lookupMap s.systems n := by
  cases hl : lookupMap s.systems n' with
  | none => simp [ResetPlatformClient, hl]
  | some e =>
    cases hc : e.client with
    | none => simp [ResetPlatformClient, hl, hc]
    | some cl =>
      simp only [ResetPlatformClient, hl, hc]
      rw [systems_notifySystemControllerS]
      exact lookupMap_insertMap_ne _ _ _ _ h

theorem step_preserves_absent (s : MgrState) (n : String) (op : Op)
    (h : GetPlatformClient s n = none) (hop : isSuccBuild n op = false) :
    GetPlatformClient (step s op) n = none := by
  cases op with
  | build n' factory =>
    cases factory with
    | none => simpa [step, BuildPlatformClient] using h
    | some hcl =>
      have hne : n ≠ n' := by
        simp only [isSuccBuild, beq_eq_false_iff_ne] at hop
        exact fun hx => hop hx.symm
      rw [getPlatformClient_eq_bind] at h ⊢
      cases hl : lookupMap s.systems n' with
      | none =>
        simp only [step, BuildPlatformClient, hl]
        rw [lookupMap_insertMap_ne _ _ _ _ hne]
        exact h
      | some e =>
        simp only [step, BuildPlatformClient, hl]
        rw [lookupMap_insertMap_ne _ _ _ _ hne]
        exact h
  | reset n' lerr uerr =>
    by_cases hnn : n = n'
    · subst hnn
      exact reset_client_cleared lerr uerr s n
    · rw [getPlatformClient_eq_bind] at h ⊢
      simp only [step]
      rw [reset_systems_other lerr uerr s n' n hnn]
      exact h
  | setReady n' v =>
    rw [getPlatformClient_eq_bind] at h ⊢
    by_cases hnn : n = n'
    · subst hnn
      cases hl : lookupMap s.systems n with
      | none =>
        simp only [step, SetSystemReady, hl]
        rw [lookupMap_insertMap_self]
        rfl
      | some e =>
        have hce : e.client = none := by rw [hl] at h; exact h
        simp only [step, SetSystemReady, hl]
        rw [lookupMap_insertMap_self]
        simpa using hce
    · cases hl : lookupMap s.systems n' with
      | none =>
        simp only [step, SetSystemReady, hl]
        rw [lookupMap_insertMap_ne _ _ _ _ hnn]
        exact h
      | some e =>
        simp only [step, SetSystemReady, hl]
        rw [lookupMap_insertMap_ne _ _ _ _ hnn]
        exact h
  | setType n' t =>
    rw [getPlatformClient_eq_bind] at h ⊢
    by_cases hnn : n = n'
    · subst hnn
      cases hl : lookupMap s.systems n with
      | none =>
        simp only [step, SetSystemType, hl]
        rw [lookupMap_insertMap_self]
        rfl
      | some e =>
        have hce : e.client = none := by rw [hl] at h; exact h
        simp only [step, SetSystemType, hl]
        by_cases ht : e.systemType = t
        · rw [if_pos ht]
          exact h
        · rw [if_neg ht, lookupMap_insertMap_self]
          simpa using hce
    · cases hl : lookupMap s.systems n' with
      | none =>
        simp only [step, SetSystemType, hl]
        rw [lookupMap_insertMap_ne _ _ _ _ hnn]
        exact h
      | some e =>
        simp only [step, SetSystemType, hl]
        by_cases ht : e.systemType = t
        · rw [if_pos ht]
          exact h
        · rw [if_neg ht, lookupMap_insertMap_ne _ _ _ _ hnn]
          exact h
  | startMon m msg =>
    rw [getPlatformClient_eq_bind] at h ⊢
    exact h
  | cancelMon key =>
    rw [getPlatformClient_eq_bind] at h ⊢
    simp only [step, CancelMonitor]
    split <;> exact h
  | notifyDeps n' lerr uerr =>
    rw [getPlatformClient_eq_bind] at h ⊢
    exact h
  | notifySys n' lerr uerr =>
    rw [getPlatformClient_eq_bind] at h ⊢
    simp only [step]
    rw [systems_notifySystemControllerS]
    exact h

theorem run_preserves_absent (n : String) (ops : List Op) (s : MgrState)
    (hs : GetPlatformClient s n = none)
    (hops : ∀ op ∈ ops, isSuccBuild n op = false) :
    GetPlatformClient (run s ops) n = none := by
  induction ops generalizing s with
  | nil => exact hs
  | cons op ops ih =>
    exact ih (step s op)
      (step_preserves_absent s n op hs (hops op (List.mem_cons_self _ _)))
      (fun o ho => hops o (List.mem_cons_of_mem _ ho))

/-- C2: for every namespace `n`, `GetPlatformClient n` is absent in every
state reachable from process start by operations none of which is a
successful `BuildPlatformClient n`, and is absent again immediately after
`ResetPlatformClient n` and stays absent until the next successful
build. -/
theorem platformClient_absent_until_build (n : String) (c0 : Cluster)
    (ops ops2 : List Op) (s : MgrState) (lerr : Option MgrError)
    (uerr : Obj → Option MgrError)
    (h1 : ∀ op ∈ ops, isSuccBuild n op = false)
    (h2 : ∀ op ∈ ops2, isSuccBuild n op = false) :
    GetPlatformClient (run (initState c0) ops) n = none ∧
    GetPlatformClient (run (ResetPlatformClient lerr uerr s n).1 ops2) n = none :=
  ⟨run_preserves_absent n ops _ rfl h1,
   run_preserves_absent n ops2 _ (reset_client_cleared lerr uerr s n) h2⟩

theorem platformClient_absent_until_build_witness :
    GetPlatformClient (run (initState [])
      [Op.setReady "ns1" true, Op.build "ns2" (some 7), Op.build "ns1" none]) "ns1" = none ∧
    GetPlatformClient (run (ResetPlatformClient none (fun _ => none)
      (MgrState.mk [("ns1", SystemNamespace.mk (some 3) true "standard")] [] [] [] [])
      "ns1").1 [Op.setType "ns1" "all-in-one"]) "ns1" = none := by
  apply platformClient_absent_until_build
  · intro op hop
    simp only [List.mem_cons, List.not_mem_nil, or_false] at hop
    rcases hop with rfl | rfl | rfl <;> rfl
  · intro op hop
    simp only [List.mem_cons, List.not_mem_nil, or_false] at hop
    rcases hop with rfl
    rfl

/-! ### C9: frame conditions of the registry setters -/

theorem step_preserves_keysNodup (s : MgrState) (op : Op)
    (h : keysNodup s.systems) : keysNodup (step s op).systems := by
  cases op with
  | build n factory =>
    cases factory with
    | none => exact h
    | some hcl =>
      cases hl : lookupMap s.systems n with
      | none =>
        simp only [step, BuildPlatformClient, hl]
        exact keysNodup_insertMap _ _ _ h
      | some e =>
        simp only [step, BuildPlatformClient, hl]
        exact keysNodup_insertMap _ _ _ h
  | reset n lerr uerr =>
    cases hl : lookupMap s.systems n with
    | none => simpa [step, ResetPlatformClient, hl] using h
    | some e =>
      cases hc : e.client with
      | none => simpa [step, ResetPlatformClient, hl, hc] using h
      | some cl =>
        simp only [step, ResetPlatformClient, hl, hc]
        rw [systems_notifySystemControllerS]
        exact keysNodup_insertMap _ _ _ h
  | setReady n v =>
    cases hl : lookupMap s.systems n with
    | none =>
      simp only [step, SetSystemReady, hl]
      exact keysNodup_insertMap _ _ _ h
    | some e =>
      simp only [step, SetSystemReady, hl]
      exact keysNodup_insertMap _ _ _ h
  | setType n t =>
    cases hl : lookupMap s.systems n with
    | none =>
      simp only [step, SetSystemType, hl]
      exact keysNodup_insertMap _ _ _ h
    | some e =>
      simp only [step, SetSystemType, hl]
      by_cases ht : e.systemType = t
      · rw [if_pos ht]
        exact h
      · rw [if_neg ht]
        exact keysNodup_insertMap _ _ _ h
  | startMon m msg => exact h
  | cancelMon key =>
    simp only [step, CancelMonitor]
    split <;> exact h
  | notifyDeps n lerr uerr => exact h
  | notifySys n lerr uerr =>
    simp only [step]
    rw [systems_notifySystemControllerS]
    exact h

theorem run_keysNodup (c0 : Cluster) (ops : List Op) :
    keysNodup (run (initState c0) ops).systems := by
  have hrun : ∀ s, keysNodup s.systems → keysNodup (run s ops).systems := by
    induction ops with
    | nil => exact fun s hs => hs
    | cons op ops ih => exact fun s hs => ih _ (step_preserves_keysNodup s op hs)
  exact hrun _ (by simp [initState, keysNodup])

/-- C9: on an existing entry, `SetSystemReady` changes only the `ready`
field and `SetSystemType` only the `systemType` field (the latter being a
no-op when the value is unchanged); either setter leaves every other
namespace's entry untouched; and every reachable registry holds at most
one entry per namespace. -/
theorem registry_partial_update_frame (s : MgrState) (n n' : String) (v : Bool)
    (t : SystemType) (e : SystemNamespace) (c0 : Cluster) (ops : List Op) :
    (lookupMap s.systems n = some e →
      lookupMap (SetSystemReady s n v).systems n = some { e with ready := v } ∧
      lookupMap (SetSystemType s n t).systems n =
        some (if e.systemType = t then e else { e with systemType := t })) ∧
    (n' ≠ n →
      lookupMap (SetSystemReady s n v).systems n' = lookupMap s.systems n' ∧
      lookupMap (SetSystemType s n t).systems n' = lookupMap s.systems n') ∧
    keysNodup (run (initState c0) ops).systems := by
  refine ⟨?_, ?_, run_keysNodup c0 ops⟩
  · intro hl
    constructor
    · simp only [SetSystemReady, hl]
      exact lookupMap_insertMap_self _ _ _
    · simp only [SetSystemType, hl]
      by_cases ht : e.systemType = t
      · rw [if_pos ht, if_pos ht]
        exact hl
      · rw [if_neg ht, if_neg ht]
        exact lookupMap_insertMap_self _ _ _
  · intro hne
    constructor
    · cases hl : lookupMap s.systems n with
      | none =>
        simp only [SetSystemReady, hl]
        exact lookupMap_insertMap_ne _ _ _ _ hne
      | some e0 =>
        simp only [SetSystemReady, hl]
        exact lookupMap_insertMap_ne _ _ _ _ hne
    · cases hl : lookupMap s.systems n with
      | none =>
        simp only [SetSystemType, hl]
        exact lookupMap_insertMap_ne _ _ _ _ hne
      | some e0 =>
        simp only [SetSystemType, hl]
        by_cases ht : e0.systemType = t
        · rw [if_pos ht]
        · rw [if_neg ht]
          exact lookupMap_insertMap_ne _ _ _ _ hne

theorem registry_partial_update_frame_witness :
    lookupMap (SetSystemReady
      (MgrState.mk [("ns1", SystemNamespace.mk (some 4) true "standard")] [] [] [] [])
      "ns1" false).systems "ns1" =
      some (SystemNamespace.mk (some 4) false "standard") ∧
    lookupMap (SetSystemType
      (MgrState.mk [("ns1", SystemNamespace.mk (some 4) true "standard")] [] [] [] [])
      "ns1" "all-in-one").systems "ns1" =
      some (SystemNamespace.mk (some 4) true "all-in-one") ∧
    lookupMap (SetSystemReady
      (MgrState.mk [("ns1", SystemNamespace.mk (some 4) true "standard")] [] [] [] [])
      "ns1" false).systems "ns2" = none ∧
    keysNodup (run (initState [])
      [Op.setReady "a" true, Op.setReady "a" false, Op.setType "b" "standard"]).systems := by
  have h := registry_partial_update_frame
    (MgrState.mk [("ns1", SystemNamespace.mk (some 4) true "standard")] [] [] [] [])
    "ns1" "ns2" false "all-in-one" (SystemNamespace.mk (some 4) true "standard") []
    [Op.setReady "a" true, Op.setReady "a" false, Op.setType "b" "standard"]
  refine ⟨(h.1 rfl).1, ?_, ?_, h.2.2⟩
  · have h2 := (h.1 rfl).2
    rw [if_neg (by decide)] at h2
    exact h2
  · have h3 := (h.2.1 (by decide)).1
    rw [h3]
    rfl

/-! ### C5, C6: the notification cascade -/

theorem ident_bumpAnn (o : Obj) : ident (bumpAnn o) = ident o := rfl

theorem ns_bumpAnn (o : Obj) : (bumpAnn o).ns = o.ns := rfl

theorem kind_bumpAnn (o : Obj) : (bumpAnn o).kind = o.kind := rfl

theorem applyAll_cons (o : Obj) (L : List Obj) (c : Cluster) :
    applyAll (o :: L) c = applyAll L (updateObj c (bumpAnn o)) := rfl

theorem repl_not_mem (L : List Obj) (x : Obj) (h : ∀ q ∈ L, ident q ≠ ident x) :
    repl L x = x := by
  induction L with
  | nil => rfl
  | cons q L ih =>
    rw [repl, if_neg (h q (List.mem_cons_self _ _))]
    exact ih fun a ha => h a (List.mem_cons_of_mem _ ha)

theorem repl_of_mem (L : List Obj) (c : Cluster) (p : Obj)
    (hsub : ∀ q ∈ L, q ∈ c) (hids : (c.map ident).Nodup)
    (hp : p ∈ L) (hpc : p ∈ c) : repl L p = bumpAnn p := by
  induction L with
  | nil => cases hp
  | cons q L ih =>
    by_cases hq : ident q = ident p
    · have hqc : q ∈ c := hsub q (List.mem_cons_self _ _)
      have : q = p := List.inj_on_of_nodup_map hids hqc hpc hq
      rw [repl, if_pos hq, this]
    · rw [repl, if_neg hq]
      rcases List.mem_cons.mp hp with rfl | hp'
      · exact absurd rfl hq
      · exact ih (fun a ha => hsub a (List.mem_cons_of_mem _ ha)) hp'

theorem applyAll_eq_map (L : List Obj) (c : Cluster)
    (h : (L.map ident).Nodup) : applyAll L c = c.map (repl L) := by
  induction L generalizing c with
  | nil =>
    rw [show applyAll [] c = c from rfl,
      List.map_id'' (fun x => (rfl : repl [] x = x))]
  | cons o L ih =>
    simp only [List.map_cons, List.nodup_cons] at h
    rw [applyAll_cons, ih _ h.2, updateObj, List.map_map]
    apply List.map_congr_left
    intro x _
    show repl L (if ident x = ident (bumpAnn o) then bumpAnn o else x) = repl (o :: L) x
    rw [ident_bumpAnn]
    by_cases hx : ident x = ident o
    · rw [if_pos hx, repl, if_pos hx.symm]
      apply repl_not_mem
      intro q hq
      rw [ident_bumpAnn]
      intro hqo
      exact h.1 (hqo ▸ List.mem_map_of_mem ident hq)
    · rw [if_neg hx, repl, if_neg (fun hxo => hx hxo.symm)]

theorem repl_filter (p : Obj → Bool) (c : Cluster) (x : Obj)
    (hids : (c.map ident).Nodup) (hx : x ∈ c) :
    repl (c.filter p) x = if p x then bumpAnn x else x := by
  by_cases hp : p x = true
  · rw [if_pos hp]
    exact repl_of_mem (c.filter p) c x (fun q hq => List.mem_of_mem_filter hq) hids
      (List.mem_filter.mpr ⟨hx, hp⟩) hx
  · rw [if_neg hp]
    apply repl_not_mem
    intro q hq hqx
    have hq' := List.mem_filter.mp hq
    have : q = x := List.inj_on_of_nodup_map hids (List.mem_of_mem_filter hq) hx hqx
    exact hp (this ▸ hq'.2)

theorem idents_map_preserved (f : Obj → Obj) (hf : ∀ o, ident (f o) = ident o)
    (c : Cluster) : (c.map f).map ident = c.map ident := by
  rw [List.map_map]
  exact List.map_congr_left fun o _ => hf o

theorem processObjs_success (uerr : Obj → Option MgrError) (objs : List Obj) (c : Cluster)
    (hk : ∀ o ∈ objs, o.kind ∈ notifyKinds)
    (hu : ∀ o ∈ objs, uerr (bumpAnn o) = none) :
    processObjs uerr objs c = (applyAll objs c, none) := by
  induction objs generalizing c with
  | nil => rfl
  | cons o rest ih =>
    have hko := hk o (List.mem_cons_self _ _)
    have huo := hu o (List.mem_cons_self _ _)
    simp only [processObjs, if_pos hko, huo]
    rw [applyAll_cons]
    exact ih _ (fun x hx => hk x (List.mem_cons_of_mem _ hx))
      (fun x hx => hu x (List.mem_cons_of_mem _ hx))

theorem processObjs_fail (uerr : Obj → Option MgrError) (pre post : List Obj) (bad : Obj)
    (c : Cluster) (e : MgrError)
    (hk : ∀ p ∈ pre, p.kind ∈ notifyKinds) (hkb : bad.kind ∈ notifyKinds)
    (hu : ∀ p ∈ pre, uerr (bumpAnn p) = none) (hb : uerr (bumpAnn bad) = some e) :
    processObjs uerr (pre ++ bad :: post) c =
      (applyAll pre c,
       some (MgrError.wrapped ("failed to notify " ++ bad.kind ++ " controller") e)) := by
  induction pre generalizing c with
  | nil =>
    simp only [List.nil_append, processObjs, if_pos hkb, hb]
    rfl
  | cons p pre ih =>
    have hkp := hk p (List.mem_cons_self _ _)
    have hup := hu p (List.mem_cons_self _ _)
    simp only [List.cons_append, processObjs, if_pos hkp, hup]
    rw [applyAll_cons]
    exact ih _ (fun x hx => hk x (List.mem_cons_of_mem _ hx))
      (fun x hx => hu x (List.mem_cons_of_mem _ hx))

theorem notifyControllers_append (lerr : String → String → Option MgrError)
    (uerr : Obj → Option MgrError) (n : String) (xs ys : List GVK) (c c1 : Cluster)
    (h : notifyControllers lerr uerr n xs c = (c1, none)) :
    notifyControllers lerr uerr n (xs ++ ys) c = notifyControllers lerr uerr n ys c1 := by
  induction xs generalizing c with
  | nil =>
    simp only [notifyControllers] at h
    rw [Prod.mk.injEq] at h
    rw [List.nil_append, h.1]
  | cons g xs ih =>
    cases hl : lerr n g.kind with
    | some e =>
      have h' : notifyControllers lerr uerr n (g :: xs) c =
          (c, some (.wrapped ("failed to query " ++ g.kind ++ " list") e)) := by
        simp only [notifyControllers, hl]
      rw [h'] at h
      exact absurd (congrArg Prod.snd h) (by simp)
    | none =>
      rcases hps : processObjs uerr (c.filter fun o => o.ns == n && o.kind == g.kind) c with
        ⟨c', eopt⟩
      cases eopt with
      | none =>
        have h' : notifyControllers lerr uerr n (g :: xs) c =
            notifyControllers lerr uerr n xs c' := by
          simp only [notifyControllers, hl, hps]
        have hgoal : notifyControllers lerr uerr n ((g :: xs) ++ ys) c =
            notifyControllers lerr uerr n (xs ++ ys) c' := by
          simp only [List.cons_append, notifyControllers, hl, hps]
          rfl
        rw [hgoal]
        exact ih _ (h'.symm.trans h)
      | some e =>
        have h' : notifyControllers lerr uerr n (g :: xs) c = (c', some e) := by
          simp only [notifyControllers, hl, hps]
        rw [h'] at h
        exact absurd (congrArg Prod.snd h) (by simp)

theorem notifyControllers_success (lerr : String → String → Option MgrError)
    (uerr : Obj → Option MgrError) (n : String) (gvks : List GVK) (c : Cluster)
    (hids : (c.map ident).Nodup)
    (hkn : (gvks.map GVK.kind).Nodup)
    (hnk : ∀ g ∈ gvks, g.kind ∈ notifyKinds)
    (hl : ∀ g ∈ gvks, lerr n g.kind = none)
    (hu : ∀ o, uerr o = none) :
    notifyControllers lerr uerr n gvks c =
      (c.map (bumpIf n (gvks.map GVK.kind)), none) := by
  induction gvks generalizing c with
  | nil =>
    simp only [notifyControllers, List.map_nil]
    rw [List.map_id'' (fun o => (by simp [bumpIf] : bumpIf n [] o = o))]
  | cons g gvks ih =>
    have hg := hnk g (List.mem_cons_self _ _)
    simp only [notifyControllers, hl g (List.mem_cons_self _ _)]
    have hmem : ∀ o ∈ c.filter (fun o => o.ns == n && o.kind == g.kind),
        o.kind ∈ notifyKinds := by
      intro o ho
      have h2 := (List.mem_filter.mp ho).2
      have : o.kind = g.kind := by
        simp only [Bool.and_eq_true, beq_iff_eq] at h2
        exact h2.2
      rw [this]
      exact hg
    rw [processObjs_success uerr _ c hmem (fun o _ => hu _)]
    have hfids : (((c.filter fun o => o.ns == n && o.kind == g.kind)).map ident).Nodup :=
      ((List.filter_sublist c).map ident).nodup hids
    rw [applyAll_eq_map _ _ hfids,
      List.map_congr_left (fun x hx => repl_filter _ c x hids hx)]
    simp only [List.map_cons, List.nodup_cons] at hkn
    show notifyControllers lerr uerr n gvks
        (c.map fun x => if (x.ns == n && x.kind == g.kind) = true then bumpAnn x else x) =
      (c.map (bumpIf n (g.kind :: gvks.map GVK.kind)), none)
    have hpt : ∀ o : Obj,
        ident (if (o.ns == n && o.kind == g.kind) = true then bumpAnn o else o) = ident o := by
      intro o
      by_cases hbo : (o.ns == n && o.kind == g.kind) = true
      · rw [if_pos hbo, ident_bumpAnn]
      · rw [if_neg hbo]
    have hids' : ((c.map fun x =>
        if (x.ns == n && x.kind == g.kind) = true then bumpAnn x else x).map ident).Nodup := by
      rw [idents_map_preserved _ hpt c]
      exact hids
    rw [ih _ hids' hkn.2 (fun g' hg' => hnk g' (List.mem_cons_of_mem _ hg'))
      (fun g' hg' => hl g' (List.mem_cons_of_mem _ hg'))]
    rw [show (c.map fun x =>
        if (x.ns == n && x.kind == g.kind) = true then bumpAnn x else x).map
          (bumpIf n (gvks.map GVK.kind)) = c.map (bumpIf n (g.kind :: gvks.map GVK.kind)) from by
      rw [List.map_map]
      apply List.map_congr_left
      intro x _
      show bumpIf n (gvks.map GVK.kind)
          (if (x.ns == n && x.kind == g.kind) = true then bumpAnn x else x) =
        bumpIf n (g.kind :: gvks.map GVK.kind) x
      by_cases hb : (x.ns == n && x.kind == g.kind) = true
      · have hns : x.ns = n := by
          simp only [Bool.and_eq_true, beq_iff_eq] at hb
          exact hb.1
        have hkd : x.kind = g.kind := by
          simp only [Bool.and_eq_true, beq_iff_eq] at hb
          exact hb.2
        rw [if_pos hb]
        rw [bumpIf, if_neg (by
          rw [kind_bumpAnn, hkd]
          exact fun hcon => hkn.1 hcon.2)]
        rw [bumpIf, if_pos ⟨hns, by rw [hkd]; exact List.mem_cons_self _ _⟩]
      · rw [if_neg hb]
        simp only [Bool.and_eq_true, beq_iff_eq, not_and] at hb
        by_cases hns : x.ns = n
        · have hkd : x.kind ≠ g.kind := hb hns
          rw [bumpIf, bumpIf]
          by_cases hin : x.kind ∈ gvks.map GVK.kind
          · rw [if_pos ⟨hns, hin⟩, if_pos ⟨hns, List.mem_cons_of_mem _ hin⟩]
          · rw [if_neg (fun hcon => hin hcon.2), if_neg (fun hcon => by
              rcases List.mem_cons.mp hcon.2 with hcc | hcc
              · exact hkd hcc
              · exact hin hcc)]
        · rw [bumpIf, bumpIf, if_neg (fun hcon => hns hcon.1),
            if_neg (fun hcon => hns hcon.1)]]

/-- C5: when every underlying list and update call succeeds,
`NotifySystemDependencies n` bumps the notification annotation on every
instance of each of exactly the five dependency kinds present in namespace
`n` (HostProfile is not among the queried kinds), and leaves every other
object — in particular every object of another namespace — unchanged. -/
theorem notifySystemDependencies_bumps_exactly_dependents
    (lerr : String → String → Option MgrError) (uerr : Obj → Option MgrError)
    (n : String) (c : Cluster)
    (hids : (c.map ident).Nodup)
    (hl : ∀ g ∈ systemDependencies, lerr n g.kind = none)
    (hu : ∀ o, uerr o = none) :
    NotifySystemDependencies lerr uerr n c =
      (c.map (bumpIf n (systemDependencies.map GVK.kind)), none) ∧
    systemDependencies.map GVK.kind =
      [KindHost, KindPlatformNetwork, KindDataNetwork, KindPTPInstance, KindPTPInterface] :=
  ⟨notifyControllers_success lerr uerr n systemDependencies c hids (by decide) (by decide)
    hl hu, rfl⟩

theorem notifySystemDependencies_bumps_exactly_dependents_witness :
    NotifySystemDependencies (fun _ _ => none) (fun _ => none) "ns1"
      [Obj.mk "ns1" KindHost "h1" none, Obj.mk "ns2" KindHost "h2" none,
       Obj.mk "ns1" KindHostProfile "p1" none] =
    ([Obj.mk "ns1" KindHost "h1" none, Obj.mk "ns2" KindHost "h2" none,
      Obj.mk "ns1" KindHostProfile "p1" none].map
        (bumpIf "ns1" (systemDependencies.map GVK.kind)), none) := by
  have h := notifySystemDependencies_bumps_exactly_dependents
    (fun _ _ => none) (fun _ => none) "ns1"
    [Obj.mk "ns1" KindHost "h1" none, Obj.mk "ns2" KindHost "h2" none,
     Obj.mk "ns1" KindHostProfile "p1" none]
    (by decide) (fun g _ => rfl) (fun o => rfl)
  exact h.1

/-- C6: if during `NotifySystemDependencies n` an update fails — the
kinds before `g` having been processed without error, the objects `pre` of
kind `g` updating fine, and the update of `bad` failing with `e` — then the
iteration aborts at `bad`: the wrapped error is returned, the cluster keeps
exactly the bumps of `pre` (partial effect remains), and the objects and
kinds after the failure are untouched. -/
theorem notifySystemDependencies_failfast_aborts
    (lerr : String → String → Option MgrError) (uerr : Obj → Option MgrError)
    (n : String) (c c1 : Cluster) (gpre gpost : List GVK) (g : GVK)
    (pre post : List Obj) (bad : Obj) (e : MgrError)
    (hsplit : systemDependencies = gpre ++ g :: gpost)
    (hpre : notifyControllers lerr uerr n gpre c = (c1, none))
    (hlist : lerr n g.kind = none)
    (hobjs : c1.filter (fun o => o.ns == n && o.kind == g.kind) = pre ++ bad :: post)
    (hpreok : ∀ p ∈ pre, uerr (bumpAnn p) = none)
    (hbad : uerr (bumpAnn bad) = some e) :
    NotifySystemDependencies lerr uerr n c =
      (applyAll pre c1,
       some (MgrError.wrapped ("failed to notify " ++ bad.kind ++ " controller") e)) ∧
    ((c1.map ident).Nodup → ∀ p ∈ pre, bumpAnn p ∈ applyAll pre c1) := by
  have hgnk : g.kind ∈ notifyKinds := by
    have hgmem : g ∈ systemDependencies := by
      rw [hsplit]
      exact List.mem_append_right _ (List.mem_cons_self _ _)
    have hall : ∀ g' ∈ systemDependencies, g'.kind ∈ notifyKinds := by decide
    exact hall g hgmem
  have hprek : ∀ p ∈ pre, p.kind ∈ notifyKinds := by
    intro p hp
    have hpf : p ∈ c1.filter (fun o => o.ns == n && o.kind == g.kind) := by
      rw [hobjs]
      exact List.mem_append_left _ hp
    have h2 := (List.mem_filter.mp hpf).2
    simp only [Bool.and_eq_true, beq_iff_eq] at h2
    rw [h2.2]
    exact hgnk
  have hbadf : bad ∈ c1.filter (fun o => o.ns == n && o.kind == g.kind) := by
    rw [hobjs]
    exact List.mem_append_right _ (List.mem_cons_self _ _)
  have hbadk : bad.kind ∈ notifyKinds := by
    have h2 := (List.mem_filter.mp hbadf).2
    simp only [Bool.and_eq_true, beq_iff_eq] at h2
    rw [h2.2]
    exact hgnk
  constructor
  · unfold NotifySystemDependencies
    rw [hsplit, notifyControllers_append lerr uerr n gpre (g :: gpost) c c1 hpre]
    simp only [notifyControllers, hlist, hobjs]
    rw [processObjs_fail uerr pre post bad c1 e hprek hbadk hpreok hbad]
  · intro hn p hp
    have hpf : p ∈ c1.filter (fun o => o.ns == n && o.kind == g.kind) := by
      rw [hobjs]
      exact List.mem_append_left _ hp
    have hpc : p ∈ c1 := List.mem_of_mem_filter hpf
    have hpreids : (pre.map ident).Nodup := by
      have hsub : List.Sublist pre c1 := by
        have h1 : List.Sublist pre (pre ++ bad :: post) := List.sublist_append_left _ _
        rw [← hobjs] at h1
        exact h1.trans (List.filter_sublist c1)
      exact (hsub.map ident).nodup hn
    rw [applyAll_eq_map pre c1 hpreids]
    have hrepl : repl pre p = bumpAnn p := by
      apply repl_of_mem pre c1 p ?_ hn hp hpc
      intro q hq
      exact List.mem_of_mem_filter (by rw [hobjs]; exact List.mem_append_left _ hq)
    rw [← hrepl]
    exact List.mem_map_of_mem (repl pre) hpc

theorem notifySystemDependencies_failfast_aborts_witness :
    NotifySystemDependencies (fun _ _ => none)
      (fun o => if o.name == "h2" then some (MgrError.external "boom") else none) "ns1"
      [Obj.mk "ns1" KindHost "h1" none, Obj.mk "ns1" KindHost "h2" none,
       Obj.mk "ns1" KindDataNetwork "d1" none] =
    (applyAll [Obj.mk "ns1" KindHost "h1" none]
       [Obj.mk "ns1" KindHost "h1" none, Obj.mk "ns1" KindHost "h2" none,
        Obj.mk "ns1" KindDataNetwork "d1" none],
     some (MgrError.wrapped ("failed to notify " ++ KindHost ++ " controller")
       (MgrError.external "boom"))) ∧
    bumpAnn (Obj.mk "ns1" KindHost "h1" none) ∈
      applyAll [Obj.mk "ns1" KindHost "h1" none]
        [Obj.mk "ns1" KindHost "h1" none, Obj.mk "ns1" KindHost "h2" none,
         Obj.mk "ns1" KindDataNetwork "d1" none] := by
  have h := notifySystemDependencies_failfast_aborts
    (fun _ _ => none)
    (fun o => if o.name == "h2" then some (MgrError.external "boom") else none)
    "ns1"
    [Obj.mk "ns1" KindHost "h1" none, Obj.mk "ns1" KindHost "h2" none,
     Obj.mk "ns1" KindDataNetwork "d1" none]
    [Obj.mk "ns1" KindHost "h1" none, Obj.mk "ns1" KindHost "h2" none,
     Obj.mk "ns1" KindDataNetwork "d1" none]
    [] [⟨GroupStarlingX, VersionV1, KindPlatformNetwork⟩,
        ⟨GroupStarlingX, VersionV1, KindDataNetwork⟩,
        ⟨GroupStarlingX, VersionV1, KindPTPInstance⟩,
        ⟨GroupStarlingX, VersionV1, KindPTPInterface⟩]
    ⟨GroupStarlingX, VersionV1, KindHost⟩
    [Obj.mk "ns1" KindHost "h1" none] [] (Obj.mk "ns1" KindHost "h2" none)
    (MgrError.external "boom")
    rfl rfl rfl (by decide) (by decide) (by decide)
  exact ⟨h.1, h.2 (by decide) _ (List.mem_cons_self _ _)⟩

/-! ### C7: NotifySystemController on a nil annotation map -/

/-- C7 (failing input): a System resource whose annotation map is `nil`.
`NotifySystemController` (line 163) assigns into the map with no nil
guard — unlike `notifyControllers` (lines 217-220) and `notifyController`
(lines 264-266) — so the bump is a Go runtime panic instead of a silent
counter reset. -/
theorem notifySystemController_nil_anns_panics :
    (NotifySystemControllerS none (fun _ => none)
        (initState [Obj.mk "ns1" KindSystem "controller-0" none]) "ns1").2 =
      COut.panicked := by
  rfl

end CPDM
